import Mathlib

/-!
# `PGAbstractValue::DatumToValue`

A shallow embedding of `src/ports/postgres/dbconnector/PGAbstractValue.cpp`:
the conversion of a PostgreSQL `Datum`, tagged by a type `Oid`, into a DBAL
value object.

Everything the function obtains from PostgreSQL (the type OID constants of
`catalog/pg_type.h`, the catalog look-ups of `utils/lsyscache.h`, the datum
decoders and the scalar accessors) is collected in the structure `Host` and is
a parameter of the embedding.  A host call that leaves through PostgreSQL's
error path (`ereport(ERROR)`, a `longjmp`) is a call that returns `none`.
The macro `BOOST_ASSERT_MSG` of `boost/assert.hpp` is a parameter as well, by
what it does on a false condition, and so is what the locals hold when they
are read after such an error.
-/

namespace madlib.dbconnector

/-- PostgreSQL object identifier, `Oid` (an unsigned integer). -/
abbrev Oid := Nat

/-- PostgreSQL `Datum`: one opaque machine word. -/
abbrev Datum := Nat

/-- The pointer `HeapTupleHeader` obtained from a row-typed datum. -/
structure HeapTupleHeader where
  addr : Nat
  deriving DecidableEq, Repr

/-- The value of a C `float`, carried as its bit pattern; no arithmetic is done on it. -/
structure float4 where
  bits : Nat
  deriving DecidableEq, Repr

/-- The value of a C `double`, carried as its bit pattern; no arithmetic is done on it. -/
structure float8 where
  bits : Nat
  deriving DecidableEq, Repr

/-- The array object behind an `ArrayType *`: dimension count, null bitmap
presence, element type, and the `int` array of per-dimension lengths that
`ARR_DIMS` points to (indexed like the C pointer). -/
structure ArrayType where
  ndim : Int
  hasnull : Bool
  elemtype : Oid
  dims : Nat → Int

/-- `ARR_NDIM(a)`: the number of dimensions. -/
def ARR_NDIM (a : ArrayType) : Int := a.ndim

/-- `ARR_HASNULL(a)`: whether the array carries a null bitmap. -/
def ARR_HASNULL (a : ArrayType) : Bool := a.hasnull

/-- `ARR_ELEMTYPE(a)`: the element type identifier. -/
def ARR_ELEMTYPE (a : ArrayType) : Oid := a.elemtype

/-- `ARR_DIMS(a)`: the per-dimension lengths, `ARR_DIMS(a)[i]` being `ARR_DIMS a i`. -/
def ARR_DIMS (a : ArrayType) : Nat → Int := a.dims

/-- The locals `isTuple`, `isArray`, `pgTuple` and `pgArray` as the statements
after `PG_END_TRY` read them: `isTuple` first, `pgTuple` only when `isTuple`,
`isArray` only when not `isTuple`, `pgArray` only when `isArray` and not
`isTuple`.  When no error was raised these are the values the `PG_TRY` block
assigned: `pgTuple` is assigned only when `isTuple`, `pgArray` only when
`isArray` and not `isTuple`. -/
inductive TryLocals where
  | tuple (isArray : Bool) (pgTuple : HeapTupleHeader)
  | array (pgArray : ArrayType)
  | neither

/-- What `BOOST_ASSERT_MSG(expr, msg)` does when `expr` is false.  The macro is
defined in `boost/assert.hpp`, outside the source file.  With `NDEBUG` or
`BOOST_DISABLE_ASSERTS` it expands to `((void)0)` and nothing happens
(`ignored`); otherwise the message is written to `std::cerr` and `std::abort()`
ends the process (`aborts`).  The source file installs no assertion handler.
When `expr` is true the macro does nothing in either case. -/
inductive FailedAssertion where
  | ignored
  | aborts
  deriving DecidableEq, Repr

/-- What `DatumToValue` takes from outside its source file.  From PostgreSQL:
the six `...OID` fields are the case labels of the two `switch` statements; the
four `Option`-valued functions are the calls made inside `PG_TRY`, `none`
standing for a raised PostgreSQL error; the next six are the scalar accessors.
From Boost: `BOOST_ASSERT_MSG`, given by what it does on a false condition.
From the machine: `indeterminate`, what the four locals hold when they are read
after a PostgreSQL error.  They are declared without initialiser and are not
`volatile`, and the error leaves the `PG_TRY` block by `longjmp`, after which C
leaves the value of every such local changed inside the block indeterminate. -/
structure Host where
  BOOLOID : Oid
  INT2OID : Oid
  INT4OID : Oid
  INT8OID : Oid
  FLOAT4OID : Oid
  FLOAT8OID : Oid
  type_is_rowtype : Oid → Option Bool
  type_is_array : Oid → Option Bool
  DatumGetHeapTupleHeader : Datum → Option HeapTupleHeader
  DatumGetArrayTypeP : Datum → Option ArrayType
  DatumGetBool : Datum → Bool
  DatumGetInt16 : Datum → Int
  DatumGetInt32 : Datum → Int
  DatumGetInt64 : Datum → Int
  DatumGetFloat4 : Datum → float4
  DatumGetFloat8 : Datum → float8
  BOOST_ASSERT_MSG : FailedAssertion
  indeterminate : TryLocals

/-- The case labels of `switch (inTypeID)` are pairwise different, as C++
requires of the labels of one `switch`. -/
def Host.caseLabelsDistinct (host : Host) : Prop :=
  [host.BOOLOID, host.INT2OID, host.INT4OID, host.INT8OID,
    host.FLOAT4OID, host.FLOAT8OID].Nodup

/-- `MemHandleSPtr`: the only handle built here is `new PGArrayHandle(pgArray)`. -/
inductive MemHandle where
  | PGArrayHandle (pgArray : ArrayType)

/-- The native types `T` for which a `ConcreteValue<T>` is built.  `Array_double`
is `Array<double>` and `Array_const_double` is `Array_const<double>`, each made
from a memory handle and `boost::extents[extent]`. -/
inductive Native where
  | bool (v : Bool)
  | int16_t (v : Int)
  | int32_t (v : Int)
  | int64_t (v : Int)
  | float (v : float4)
  | double (v : float8)
  | Array_double (memoryHandle : MemHandle) (extent : Int)
  | Array_const_double (memoryHandle : MemHandle) (extent : Int)

/-- The objects an `AbstractValueSPtr` returned by `DatumToValue` can point to. -/
inductive AbstractValue where
  | PGValue (pgTuple : HeapTupleHeader)
  | ConcreteValue (value : Native)

/-- `AbstractValueSPtr`, a shared pointer: `none` is the empty pointer. -/
abbrev AbstractValueSPtr := Option AbstractValue

/-- The ways `DatumToValue` ends without returning.  `abort` is the end of the
whole process in `std::abort()`, reached from a failed `BOOST_ASSERT_MSG` after
its message `msg` was written to `std::cerr`: no caller is resumed and no
exception is raised.  `invalid_argument` is the thrown `std::invalid_argument`
with its message, which reaches the caller. -/
inductive Failure where
  | abort (msg : String)
  | invalid_argument (msg : String)
  deriving DecidableEq, Repr

/-- The `PG_TRY` block (source lines 35 to 45).  `none` is `errorOccurred = true`. -/
def tryBlock (host : Host) (inTypeID : Oid) (inDatum : Datum) : Option TryLocals :=
  match host.type_is_rowtype inTypeID with
  | none => none
  | some isTuple =>
    match host.type_is_array inTypeID with
    | none => none
    | some isArray =>
      if isTuple then
        match host.DatumGetHeapTupleHeader inDatum with
        | none => none
        | some pgTuple => some (TryLocals.tuple isArray pgTuple)
      else if isArray then
        match host.DatumGetArrayTypeP inDatum with
        | none => none
        | some pgArray => some (TryLocals.array pgArray)
      else some TryLocals.neither

/-- The final `switch (inTypeID)` with the `return AbstractValueSPtr()` after it
(source lines 84 to 99). -/
def scalarSwitch (host : Host) (inTypeID : Oid) (inDatum : Datum) : AbstractValueSPtr :=
  if inTypeID = host.BOOLOID then
    some (AbstractValue.ConcreteValue (Native.bool (host.DatumGetBool inDatum)))
  else if inTypeID = host.INT2OID then
    some (AbstractValue.ConcreteValue (Native.int16_t (host.DatumGetInt16 inDatum)))
  else if inTypeID = host.INT4OID then
    some (AbstractValue.ConcreteValue (Native.int32_t (host.DatumGetInt32 inDatum)))
  else if inTypeID = host.INT8OID then
    some (AbstractValue.ConcreteValue (Native.int64_t (host.DatumGetInt64 inDatum)))
  else if inTypeID = host.FLOAT4OID then
    some (AbstractValue.ConcreteValue (Native.float (host.DatumGetFloat4 inDatum)))
  else if inTypeID = host.FLOAT8OID then
    some (AbstractValue.ConcreteValue (Native.double (host.DatumGetFloat8 inDatum)))
  else none

/-- The statements after the assertion (source lines 50 to 99), on the values
read from the locals.  An array whose element type is not `FLOAT8OID` leaves
the inner `switch`, which has no default case, and continues at the final
`switch (inTypeID)`. -/
def afterAssertion (host : Host) (inMemoryIsWritable : Bool) (inTypeID : Oid)
    (inDatum : Datum) : TryLocals → Except Failure AbstractValueSPtr
  | TryLocals.tuple _ pgTuple =>
    Except.ok (some (AbstractValue.PGValue pgTuple))
  | TryLocals.array pgArray =>
    if ARR_NDIM pgArray ≠ 1 then
      Except.error (Failure.invalid_argument "Multidimensional arrays not yet supported")
    else if ARR_HASNULL pgArray then
      Except.error (Failure.invalid_argument "Arrays with NULLs not yet supported")
    else if ARR_ELEMTYPE pgArray = host.FLOAT8OID then
      if inMemoryIsWritable then
        Except.ok (some (AbstractValue.ConcreteValue
          (Native.Array_double (MemHandle.PGArrayHandle pgArray) (ARR_DIMS pgArray 0))))
      else
        Except.ok (some (AbstractValue.ConcreteValue
          (Native.Array_const_double (MemHandle.PGArrayHandle pgArray) (ARR_DIMS pgArray 0))))
    else Except.ok (scalarSwitch host inTypeID inDatum)
  | TryLocals.neither => Except.ok (scalarSwitch host inTypeID inDatum)

/-- `PGAbstractValue::DatumToValue` (source lines 26 to 100).  When the
`PG_TRY` block raised no error, `errorOccurred` is false, the assertion of line
47 does nothing, and the statements after it run on the locals the block
assigned.  When it raised one, `errorOccurred` is true and line 47,
`BOOST_ASSERT_MSG(errorOccurred == false, ...)`, is the only statement that
looks at it: nothing is thrown or returned there.  Where the failed assertion
aborts, the process ends at line 47; where it is ignored, the statements after
it run all the same, on indeterminate locals. -/
def DatumToValue (host : Host) (inMemoryIsWritable : Bool) (inTypeID : Oid)
    (inDatum : Datum) : Except Failure AbstractValueSPtr :=
  match tryBlock host inTypeID inDatum with
  | some locals => afterAssertion host inMemoryIsWritable inTypeID inDatum locals
  | none =>
    match host.BOOST_ASSERT_MSG with
    | FailedAssertion.aborts =>
      Except.error (Failure.abort
        "An exception occurred while converting a PostgreSQL datum to DBAL object.")
    | FailedAssertion.ignored =>
      afterAssertion host inMemoryIsWritable inTypeID inDatum host.indeterminate

/-! ## A concrete host

A small PostgreSQL stand-in on which the conversion can be evaluated.  The OID
constants are those of `catalog/pg_type.h`. -/

/-- Two's-complement reading of the low `w` bits of a word. -/
def signedLow (w : Nat) (d : Datum) : Int :=
  if d % 2 ^ w < 2 ^ (w - 1) then (d % 2 ^ w : Nat) else (d % 2 ^ w : Nat) - (2 ^ w : Nat)

/-- A one-dimensional `float8` array of length `3` without null bitmap. -/
def sampleFloat8Array : ArrayType := ⟨1, false, 701, fun i => if i = 0 then 3 else 0⟩

/-- A one-dimensional `int4` array of length `2` without null bitmap. -/
def sampleInt4Array : ArrayType := ⟨1, false, 23, fun i => if i = 0 then 2 else 0⟩

/-- A two-dimensional `float8` array, `2` by `2`, without null bitmap. -/
def sampleMatrix : ArrayType := ⟨2, false, 701, fun i => if i < 2 then 2 else 0⟩

/-- A one-dimensional `float8` array of length `3` with a null bitmap. -/
def sampleNullArray : ArrayType := ⟨1, true, 701, fun i => if i = 0 then 3 else 0⟩

/-- A zero-dimensional (empty) `float8` array. -/
def sampleEmptyArray : ArrayType := ⟨0, false, 701, fun _ => 0⟩

/-- A two-dimensional `float8` array, `2` by `2`, with a null bitmap. -/
def sampleNullMatrix : ArrayType := ⟨2, true, 701, fun i => if i < 2 then 2 else 0⟩

/-- The arrays of the sample host, by the datum that points to them; any datum
other than `1` to `6` fails to decode as an array. -/
def sampleArrays (d : Datum) : Option ArrayType :=
  if d = 1 then some sampleFloat8Array
  else if d = 2 then some sampleInt4Array
  else if d = 3 then some sampleMatrix
  else if d = 4 then some sampleNullArray
  else if d = 5 then some sampleEmptyArray
  else if d = 6 then some sampleNullMatrix
  else none

/-- The sample host.  Row types: `2249` (`RECORDOID`) and the synthetic `9000`,
which is also reported as an array type.  Array types: `1007` (`int4[]`),
`1022` (`float8[]`) and `9000`.  The catalog look-ups raise an error on the
synthetic identifiers `9001` (row-type test) and `9002` (array test); tuple
decoding raises an error on the datum `0`.  Assertions are active, and
indeterminate `bool` locals read as `false`. -/
def sampleHost : Host where
  BOOLOID := 16
  INT2OID := 21
  INT4OID := 23
  INT8OID := 20
  FLOAT4OID := 700
  FLOAT8OID := 701
  type_is_rowtype := fun t => if t = 9001 then none else some (t = 2249 || t = 9000)
  type_is_array := fun t =>
    if t = 9002 then none else some (t = 1007 || t = 1022 || t = 9000)
  DatumGetHeapTupleHeader := fun d => if d = 0 then none else some ⟨d⟩
  DatumGetArrayTypeP := sampleArrays
  DatumGetBool := fun d => decide (d % 256 ≠ 0)
  DatumGetInt16 := signedLow 16
  DatumGetInt32 := signedLow 32
  DatumGetInt64 := signedLow 64
  DatumGetFloat4 := fun d => ⟨d % 2 ^ 32⟩
  DatumGetFloat8 := fun d => ⟨d % 2 ^ 64⟩
  BOOST_ASSERT_MSG := FailedAssertion.aborts
  indeterminate := TryLocals.neither

/-- The sample host built with `NDEBUG`: `BOOST_ASSERT_MSG` expands to nothing,
and the locals read after a PostgreSQL error hold `locals`. -/
def sampleHostNDEBUG (locals : TryLocals) : Host :=
  { sampleHost with BOOST_ASSERT_MSG := FailedAssertion.ignored, indeterminate := locals }

/-- Whether an outcome of `DatumToValue` is a returned `ConcreteValue` of the
writable view kind `Array<double>`. -/
def returnsWritableView : Except Failure AbstractValueSPtr → Bool
  | Except.ok (some (AbstractValue.ConcreteValue (Native.Array_double _ _))) => true
  | _ => false

/-- Whether an outcome of `DatumToValue` is a returned `ConcreteValue` of the
read-only view kind `Array_const<double>`. -/
def returnsReadOnlyView : Except Failure AbstractValueSPtr → Bool
  | Except.ok (some (AbstractValue.ConcreteValue (Native.Array_const_double _ _))) => true
  | _ => false

/-- Whether an outcome of `DatumToValue` is one of: a returned `PGValue` (a
tuple), a returned `ConcreteValue` of a scalar type, the empty pointer, or a
thrown `std::invalid_argument`.  The two array view kinds and the abort at
the failed assertion are the outcomes left out. -/
def tupleScalarEmptyOrRefused : Except Failure AbstractValueSPtr → Bool
  | Except.ok (some (AbstractValue.PGValue _)) => true
  | Except.ok (some (AbstractValue.ConcreteValue (Native.bool _))) => true
  | Except.ok (some (AbstractValue.ConcreteValue (Native.int16_t _))) => true
  | Except.ok (some (AbstractValue.ConcreteValue (Native.int32_t _))) => true
  | Except.ok (some (AbstractValue.ConcreteValue (Native.int64_t _))) => true
  | Except.ok (some (AbstractValue.ConcreteValue (Native.float _))) => true
  | Except.ok (some (AbstractValue.ConcreteValue (Native.double _))) => true
  | Except.ok none => true
  | Except.error (Failure.invalid_argument _) => true
  | _ => false

/-! ## Shared lemmas -/

theorem tryBlock_neither (host : Host) (inTypeID : Oid) (inDatum : Datum)
    (hrow : host.type_is_rowtype inTypeID = some false)
    (harr : host.type_is_array inTypeID = some false) :
    tryBlock host inTypeID inDatum = some TryLocals.neither := by
  simp [tryBlock, hrow, harr]

theorem tryBlock_array (host : Host) (inTypeID : Oid) (inDatum : Datum) (pgArray : ArrayType)
    (hrow : host.type_is_rowtype inTypeID = some false)
    (harr : host.type_is_array inTypeID = some true)
    (hdec : host.DatumGetArrayTypeP inDatum = some pgArray) :
    tryBlock host inTypeID inDatum = some (TryLocals.array pgArray) := by
  simp [tryBlock, hrow, harr, hdec]

theorem tryBlock_tuple (host : Host) (inTypeID : Oid) (inDatum : Datum) (isArray : Bool)
    (pgTuple : HeapTupleHeader)
    (hrow : host.type_is_rowtype inTypeID = some true)
    (harr : host.type_is_array inTypeID = some isArray)
    (hdec : host.DatumGetHeapTupleHeader inDatum = some pgTuple) :
    tryBlock host inTypeID inDatum = some (TryLocals.tuple isArray pgTuple) := by
  simp [tryBlock, hrow, harr, hdec]

theorem DatumToValue_neither (host : Host) (w : Bool) (inTypeID : Oid) (inDatum : Datum)
    (hrow : host.type_is_rowtype inTypeID = some false)
    (harr : host.type_is_array inTypeID = some false) :
    DatumToValue host w inTypeID inDatum = Except.ok (scalarSwitch host inTypeID inDatum) := by
  simp [DatumToValue, afterAssertion, tryBlock_neither host inTypeID inDatum hrow harr]

theorem DatumToValue_array (host : Host) (w : Bool) (inTypeID : Oid) (inDatum : Datum)
    (pgArray : ArrayType)
    (hrow : host.type_is_rowtype inTypeID = some false)
    (harr : host.type_is_array inTypeID = some true)
    (hdec : host.DatumGetArrayTypeP inDatum = some pgArray) :
    DatumToValue host w inTypeID inDatum =
      if ARR_NDIM pgArray ≠ 1 then
        Except.error (Failure.invalid_argument "Multidimensional arrays not yet supported")
      else if ARR_HASNULL pgArray then
        Except.error (Failure.invalid_argument "Arrays with NULLs not yet supported")
      else if ARR_ELEMTYPE pgArray = host.FLOAT8OID then
        if w then
          Except.ok (some (AbstractValue.ConcreteValue
            (Native.Array_double (MemHandle.PGArrayHandle pgArray) (ARR_DIMS pgArray 0))))
        else
          Except.ok (some (AbstractValue.ConcreteValue
            (Native.Array_const_double (MemHandle.PGArrayHandle pgArray) (ARR_DIMS pgArray 0))))
      else Except.ok (scalarSwitch host inTypeID inDatum) := by
  simp only [DatumToValue, afterAssertion,
    tryBlock_array host inTypeID inDatum pgArray hrow harr hdec]

theorem sampleHost_caseLabelsDistinct : sampleHost.caseLabelsDistinct := by
  simp [Host.caseLabelsDistinct, sampleHost]

theorem scalarSwitch_of_label (host : Host) (inTypeID : Oid) (inDatum : Datum)
    (hlabels : host.caseLabelsDistinct) :
    (inTypeID = host.BOOLOID → scalarSwitch host inTypeID inDatum =
      some (AbstractValue.ConcreteValue (Native.bool (host.DatumGetBool inDatum))))
    ∧ (inTypeID = host.INT2OID → scalarSwitch host inTypeID inDatum =
      some (AbstractValue.ConcreteValue (Native.int16_t (host.DatumGetInt16 inDatum))))
    ∧ (inTypeID = host.INT4OID → scalarSwitch host inTypeID inDatum =
      some (AbstractValue.ConcreteValue (Native.int32_t (host.DatumGetInt32 inDatum))))
    ∧ (inTypeID = host.INT8OID → scalarSwitch host inTypeID inDatum =
      some (AbstractValue.ConcreteValue (Native.int64_t (host.DatumGetInt64 inDatum))))
    ∧ (inTypeID = host.FLOAT4OID → scalarSwitch host inTypeID inDatum =
      some (AbstractValue.ConcreteValue (Native.float (host.DatumGetFloat4 inDatum))))
    ∧ (inTypeID = host.FLOAT8OID → scalarSwitch host inTypeID inDatum =
      some (AbstractValue.ConcreteValue (Native.double (host.DatumGetFloat8 inDatum)))) := by
  simp only [Host.caseLabelsDistinct, List.nodup_cons, List.mem_cons, List.mem_singleton,
    not_or, List.not_mem_nil, not_false_eq_true, List.nodup_nil, and_true] at hlabels
  obtain ⟨⟨h12, h13, h14, h15, h16⟩, ⟨h23, h24, h25, h26⟩, ⟨h34, h35, h36⟩,
    ⟨h45, h46⟩, h56⟩ := hlabels
  refine ⟨?_, ?_, ?_, ?_, ?_, ?_⟩ <;> intro h <;> subst h
  · simp [scalarSwitch]
  · simp [scalarSwitch, Ne.symm h12]
  · simp [scalarSwitch, Ne.symm h13, Ne.symm h23]
  · simp [scalarSwitch, Ne.symm h14, Ne.symm h24, Ne.symm h34]
  · simp [scalarSwitch, Ne.symm h15, Ne.symm h25, Ne.symm h35, Ne.symm h45]
  · simp [scalarSwitch, Ne.symm h16, Ne.symm h26, Ne.symm h36, Ne.symm h46, Ne.symm h56]

theorem scalarSwitch_of_no_label (host : Host) (inTypeID : Oid) (inDatum : Datum)
    (hbool : inTypeID ≠ host.BOOLOID) (hint2 : inTypeID ≠ host.INT2OID)
    (hint4 : inTypeID ≠ host.INT4OID) (hint8 : inTypeID ≠ host.INT8OID)
    (hfloat4 : inTypeID ≠ host.FLOAT4OID) (hfloat8 : inTypeID ≠ host.FLOAT8OID) :
    scalarSwitch host inTypeID inDatum = none := by
  simp [scalarSwitch, hbool, hint2, hint4, hint8, hfloat4, hfloat8]

theorem DatumToValue_array_fallthrough (host : Host) (w : Bool) (inTypeID : Oid)
    (inDatum : Datum) (pgArray : ArrayType)
    (hrow : host.type_is_rowtype inTypeID = some false)
    (harr : host.type_is_array inTypeID = some true)
    (hdec : host.DatumGetArrayTypeP inDatum = some pgArray)
    (hdim : ARR_NDIM pgArray = 1)
    (hnull : ARR_HASNULL pgArray = false)
    (helem : ARR_ELEMTYPE pgArray ≠ host.FLOAT8OID) :
    DatumToValue host w inTypeID inDatum = Except.ok (scalarSwitch host inTypeID inDatum) := by
  rw [DatumToValue_array host w inTypeID inDatum pgArray hrow harr hdec]
  simp [hdim, hnull, helem]

theorem afterAssertion_flag (host : Host) (w : Bool) (inTypeID : Oid) (inDatum : Datum)
    (locals : TryLocals)
    (hout : tupleScalarEmptyOrRefused
      (afterAssertion host w inTypeID inDatum locals) = true) :
    afterAssertion host true inTypeID inDatum locals =
      afterAssertion host false inTypeID inDatum locals := by
  cases locals with
  | tuple isArray pgTuple => rfl
  | neither => rfl
  | array pgArray =>
    simp only [afterAssertion] at hout ⊢
    by_cases hdim : ARR_NDIM pgArray ≠ 1
    · simp [hdim]
    · by_cases hnull : ARR_HASNULL pgArray = true
      · simp [hdim, hnull]
      · by_cases helem : ARR_ELEMTYPE pgArray = host.FLOAT8OID
        · cases w <;> simp [hdim, hnull, helem, tupleScalarEmptyOrRefused] at hout
        · simp [hdim, hnull, helem]

/-! ## Scalars -/

/-- C1: for a type identifier that is neither a row type nor an array type and
equals one of the six scalar case labels, `DatumToValue` returns, for every datum
and either writable flag, a non-empty `ConcreteValue` of the matching native
type holding what the matching accessor (`DatumGetBool`, `DatumGetInt16`,
`DatumGetInt32`, `DatumGetInt64`, `DatumGetFloat4`, `DatumGetFloat8`) reads
from the datum. -/
theorem DatumToValue_supported_scalar (host : Host) (inMemoryIsWritable : Bool)
    (inTypeID : Oid) (inDatum : Datum)
    (hlabels : host.caseLabelsDistinct)
    (hrow : host.type_is_rowtype inTypeID = some false)
    (harr : host.type_is_array inTypeID = some false) :
    (inTypeID = host.BOOLOID →
      DatumToValue host inMemoryIsWritable inTypeID inDatum =
        Except.ok (some (AbstractValue.ConcreteValue (Native.bool (host.DatumGetBool inDatum)))))
    ∧ (inTypeID = host.INT2OID →
      DatumToValue host inMemoryIsWritable inTypeID inDatum =
        Except.ok (some (AbstractValue.ConcreteValue
          (Native.int16_t (host.DatumGetInt16 inDatum)))))
    ∧ (inTypeID = host.INT4OID →
      DatumToValue host inMemoryIsWritable inTypeID inDatum =
        Except.ok (some (AbstractValue.ConcreteValue
          (Native.int32_t (host.DatumGetInt32 inDatum)))))
    ∧ (inTypeID = host.INT8OID →
      DatumToValue host inMemoryIsWritable inTypeID inDatum =
        Except.ok (some (AbstractValue.ConcreteValue
          (Native.int64_t (host.DatumGetInt64 inDatum)))))
    ∧ (inTypeID = host.FLOAT4OID →
      DatumToValue host inMemoryIsWritable inTypeID inDatum =
        Except.ok (some (AbstractValue.ConcreteValue
          (Native.float (host.DatumGetFloat4 inDatum)))))
    ∧ (inTypeID = host.FLOAT8OID →
      DatumToValue host inMemoryIsWritable inTypeID inDatum =
        Except.ok (some (AbstractValue.ConcreteValue
          (Native.double (host.DatumGetFloat8 inDatum))))) := by
  rw [DatumToValue_neither host inMemoryIsWritable inTypeID inDatum hrow harr]
  simp only [Host.caseLabelsDistinct, List.nodup_cons, List.mem_cons, List.mem_singleton,
    not_or, List.not_mem_nil, not_false_eq_true, List.nodup_nil, and_true] at hlabels
  obtain ⟨⟨h12, h13, h14, h15, h16⟩, ⟨h23, h24, h25, h26⟩, ⟨h34, h35, h36⟩,
    ⟨h45, h46⟩, h56⟩ := hlabels
  refine ⟨?_, ?_, ?_, ?_, ?_, ?_⟩ <;> intro h <;> subst h
  · simp [scalarSwitch]
  · simp [scalarSwitch, Ne.symm h12]
  · simp [scalarSwitch, Ne.symm h13, Ne.symm h23]
  · simp [scalarSwitch, Ne.symm h14, Ne.symm h24, Ne.symm h34]
  · simp [scalarSwitch, Ne.symm h15, Ne.symm h25, Ne.symm h35, Ne.symm h45]
  · simp [scalarSwitch, Ne.symm h16, Ne.symm h26, Ne.symm h36, Ne.symm h46, Ne.symm h56]

/-- C1, evaluated: on the sample host the `int2` identifier `21` with the datum
`65535` gives a `ConcreteValue<int16_t>` holding `-1`. -/
theorem DatumToValue_supported_scalar_witness :
    sampleHost.caseLabelsDistinct
    ∧ sampleHost.type_is_rowtype 21 = some false
    ∧ sampleHost.type_is_array 21 = some false
    ∧ DatumToValue sampleHost true 21 65535 =
        Except.ok (some (AbstractValue.ConcreteValue (Native.int16_t (-1)))) :=
  ⟨sampleHost_caseLabelsDistinct, rfl, rfl,
    (DatumToValue_supported_scalar sampleHost true 21 65535
      sampleHost_caseLabelsDistinct rfl rfl).2.1 rfl⟩

/-- C2: for a type identifier that is neither a row type nor an array type and
is none of the six scalar case labels, `DatumToValue` returns the empty pointer
for every datum and either writable flag; it neither fails nor returns an
object. -/
theorem DatumToValue_unsupported_scalar (host : Host) (inMemoryIsWritable : Bool)
    (inTypeID : Oid) (inDatum : Datum)
    (hrow : host.type_is_rowtype inTypeID = some false)
    (harr : host.type_is_array inTypeID = some false)
    (hbool : inTypeID ≠ host.BOOLOID) (hint2 : inTypeID ≠ host.INT2OID)
    (hint4 : inTypeID ≠ host.INT4OID) (hint8 : inTypeID ≠ host.INT8OID)
    (hfloat4 : inTypeID ≠ host.FLOAT4OID) (hfloat8 : inTypeID ≠ host.FLOAT8OID) :
    DatumToValue host inMemoryIsWritable inTypeID inDatum = Except.ok none := by
  rw [DatumToValue_neither host inMemoryIsWritable inTypeID inDatum hrow harr]
  simp [scalarSwitch, hbool, hint2, hint4, hint8, hfloat4, hfloat8]

/-- C2, evaluated: on the sample host the `text` identifier `25` gives the empty
pointer. -/
theorem DatumToValue_unsupported_scalar_witness :
    (sampleHost.type_is_rowtype 25 = some false
      ∧ sampleHost.type_is_array 25 = some false
      ∧ (25 : Oid) ≠ sampleHost.BOOLOID ∧ (25 : Oid) ≠ sampleHost.INT2OID
      ∧ (25 : Oid) ≠ sampleHost.INT4OID ∧ (25 : Oid) ≠ sampleHost.INT8OID
      ∧ (25 : Oid) ≠ sampleHost.FLOAT4OID ∧ (25 : Oid) ≠ sampleHost.FLOAT8OID)
    ∧ DatumToValue sampleHost false 25 7 = Except.ok none :=
  ⟨⟨rfl, rfl, by decide, by decide, by decide, by decide, by decide, by decide⟩,
    DatumToValue_unsupported_scalar sampleHost false 25 7 rfl rfl
      (by decide) (by decide) (by decide) (by decide) (by decide) (by decide)⟩

/-! ## Tuples -/

/-- C3: for a row-type identifier, `DatumToValue` returns a non-empty `PGValue`
around the tuple header decoded from the datum, whatever the writable flag and
whether or not the identifier is also reported as an array type.  The array
decoder, the array header, the case labels and the scalar accessors are
arbitrary here, so no array failure and no scalar or array result can arise. -/
theorem DatumToValue_tuple (host : Host) (inMemoryIsWritable : Bool) (inTypeID : Oid)
    (inDatum : Datum) (isArray : Bool) (pgTuple : HeapTupleHeader)
    (hrow : host.type_is_rowtype inTypeID = some true)
    (harr : host.type_is_array inTypeID = some isArray)
    (hdec : host.DatumGetHeapTupleHeader inDatum = some pgTuple) :
    DatumToValue host inMemoryIsWritable inTypeID inDatum =
      Except.ok (some (AbstractValue.PGValue pgTuple)) := by
  simp only [DatumToValue, afterAssertion,
    tryBlock_tuple host inTypeID inDatum isArray pgTuple hrow harr hdec]

/-- C3, evaluated: the identifier `9000` of the sample host is a row type and an
array type at once, the datum `3` would decode to a two-dimensional array, and
the result is the `PGValue` of the tuple header. -/
theorem DatumToValue_tuple_witness :
    (sampleHost.type_is_rowtype 9000 = some true
      ∧ sampleHost.type_is_array 9000 = some true
      ∧ sampleHost.DatumGetHeapTupleHeader 3 = some ⟨3⟩)
    ∧ DatumToValue sampleHost true 9000 3 = Except.ok (some (AbstractValue.PGValue ⟨3⟩)) :=
  ⟨⟨rfl, rfl, rfl⟩, DatumToValue_tuple sampleHost true 9000 3 true ⟨3⟩ rfl rfl rfl⟩

/-! ## Arrays -/

/-- C4: for an array type that is not a row type, when the decoded array has a
dimension count other than `1`, `DatumToValue` throws `std::invalid_argument`
("Multidimensional arrays not yet supported"), for every element type, null
bitmap state and writable flag. -/
theorem DatumToValue_array_ndim (host : Host) (inMemoryIsWritable : Bool) (inTypeID : Oid)
    (inDatum : Datum) (pgArray : ArrayType)
    (hrow : host.type_is_rowtype inTypeID = some false)
    (harr : host.type_is_array inTypeID = some true)
    (hdec : host.DatumGetArrayTypeP inDatum = some pgArray)
    (hdim : ARR_NDIM pgArray ≠ 1) :
    DatumToValue host inMemoryIsWritable inTypeID inDatum =
      Except.error (Failure.invalid_argument "Multidimensional arrays not yet supported") := by
  rw [DatumToValue_array host inMemoryIsWritable inTypeID inDatum pgArray hrow harr hdec,
    if_pos hdim]

/-- C4, evaluated: the zero-dimensional `float8` array behind the datum `5` of
the sample host is refused. -/
theorem DatumToValue_array_ndim_witness :
    (sampleHost.type_is_rowtype 1022 = some false
      ∧ sampleHost.type_is_array 1022 = some true
      ∧ sampleHost.DatumGetArrayTypeP 5 = some sampleEmptyArray
      ∧ ARR_NDIM sampleEmptyArray ≠ 1)
    ∧ DatumToValue sampleHost false 1022 5 =
        Except.error (Failure.invalid_argument "Multidimensional arrays not yet supported") :=
  ⟨⟨rfl, rfl, rfl, by decide⟩,
    DatumToValue_array_ndim sampleHost false 1022 5 sampleEmptyArray rfl rfl rfl (by decide)⟩

/-- C5: for an array type that is not a row type, when the decoded array has a
null bitmap, `DatumToValue` throws `std::invalid_argument` and returns nothing,
for every element type, dimension count and writable flag. -/
theorem DatumToValue_array_hasnull (host : Host) (inMemoryIsWritable : Bool) (inTypeID : Oid)
    (inDatum : Datum) (pgArray : ArrayType)
    (hrow : host.type_is_rowtype inTypeID = some false)
    (harr : host.type_is_array inTypeID = some true)
    (hdec : host.DatumGetArrayTypeP inDatum = some pgArray)
    (hnull : ARR_HASNULL pgArray = true) :
    ∃ msg : String, DatumToValue host inMemoryIsWritable inTypeID inDatum =
      Except.error (Failure.invalid_argument msg) := by
  rw [DatumToValue_array host inMemoryIsWritable inTypeID inDatum pgArray hrow harr hdec]
  by_cases hdim : ARR_NDIM pgArray ≠ 1
  · exact ⟨_, if_pos hdim⟩
  · rw [if_neg hdim, if_pos hnull]
    exact ⟨_, rfl⟩

/-- C5, evaluated: the one-dimensional `float8` array with a null bitmap behind
the datum `4` of the sample host is refused. -/
theorem DatumToValue_array_hasnull_witness :
    (sampleHost.type_is_rowtype 1022 = some false
      ∧ sampleHost.type_is_array 1022 = some true
      ∧ sampleHost.DatumGetArrayTypeP 4 = some sampleNullArray
      ∧ ARR_HASNULL sampleNullArray = true)
    ∧ ∃ msg : String, DatumToValue sampleHost true 1022 4 =
        Except.error (Failure.invalid_argument msg) :=
  ⟨⟨rfl, rfl, rfl, rfl⟩,
    DatumToValue_array_hasnull sampleHost true 1022 4 sampleNullArray rfl rfl rfl rfl⟩

/-- C6: for an array type that is not a row type, when the decoded array is
one-dimensional, has no null bitmap and has element type `FLOAT8OID`,
`DatumToValue` with the writable flag `false` returns a non-empty
`ConcreteValue` of the read-only kind `Array_const<double>`, built on a
`PGArrayHandle` of that very array with extent `ARR_DIMS(pgArray)[0]`; the
result is not of the writable kind. -/
theorem DatumToValue_array_readonly (host : Host) (inTypeID : Oid) (inDatum : Datum)
    (pgArray : ArrayType)
    (hrow : host.type_is_rowtype inTypeID = some false)
    (harr : host.type_is_array inTypeID = some true)
    (hdec : host.DatumGetArrayTypeP inDatum = some pgArray)
    (hdim : ARR_NDIM pgArray = 1)
    (hnull : ARR_HASNULL pgArray = false)
    (helem : ARR_ELEMTYPE pgArray = host.FLOAT8OID) :
    DatumToValue host false inTypeID inDatum =
        Except.ok (some (AbstractValue.ConcreteValue
          (Native.Array_const_double (MemHandle.PGArrayHandle pgArray) (ARR_DIMS pgArray 0))))
    ∧ returnsReadOnlyView (DatumToValue host false inTypeID inDatum) = true
    ∧ returnsWritableView (DatumToValue host false inTypeID inDatum) = false := by
  have h : DatumToValue host false inTypeID inDatum =
      Except.ok (some (AbstractValue.ConcreteValue
        (Native.Array_const_double (MemHandle.PGArrayHandle pgArray) (ARR_DIMS pgArray 0)))) := by
    rw [DatumToValue_array host false inTypeID inDatum pgArray hrow harr hdec]
    simp [hdim, hnull, helem]
  exact ⟨h, by rw [h]; rfl, by rw [h]; rfl⟩

/-- C6, evaluated: the `float8[3]` behind the datum `1` of the sample host gives
a read-only view of extent `3`. -/
theorem DatumToValue_array_readonly_witness :
    (sampleHost.type_is_rowtype 1022 = some false
      ∧ sampleHost.type_is_array 1022 = some true
      ∧ sampleHost.DatumGetArrayTypeP 1 = some sampleFloat8Array
      ∧ ARR_NDIM sampleFloat8Array = 1
      ∧ ARR_HASNULL sampleFloat8Array = false
      ∧ ARR_ELEMTYPE sampleFloat8Array = sampleHost.FLOAT8OID)
    ∧ DatumToValue sampleHost false 1022 1 =
        Except.ok (some (AbstractValue.ConcreteValue
          (Native.Array_const_double (MemHandle.PGArrayHandle sampleFloat8Array) 3))) :=
  ⟨⟨rfl, rfl, rfl, rfl, rfl, rfl⟩,
    (DatumToValue_array_readonly sampleHost 1022 1 sampleFloat8Array
      rfl rfl rfl rfl rfl rfl).1⟩

/-- C7: for an array type that is not a row type, when the decoded array is
one-dimensional, has no null bitmap and has element type `FLOAT8OID`,
`DatumToValue` with the writable flag `true` returns a non-empty
`ConcreteValue` of the writable kind `Array<double>`, built on a
`PGArrayHandle` of that array with extent `ARR_DIMS(pgArray)[0]`, and not the
read-only kind; for either flag the returned view is of the writable kind
exactly when the flag is `true`. -/
theorem DatumToValue_array_writable (host : Host) (inTypeID : Oid) (inDatum : Datum)
    (pgArray : ArrayType)
    (hrow : host.type_is_rowtype inTypeID = some false)
    (harr : host.type_is_array inTypeID = some true)
    (hdec : host.DatumGetArrayTypeP inDatum = some pgArray)
    (hdim : ARR_NDIM pgArray = 1)
    (hnull : ARR_HASNULL pgArray = false)
    (helem : ARR_ELEMTYPE pgArray = host.FLOAT8OID) :
    DatumToValue host true inTypeID inDatum =
        Except.ok (some (AbstractValue.ConcreteValue
          (Native.Array_double (MemHandle.PGArrayHandle pgArray) (ARR_DIMS pgArray 0))))
    ∧ returnsReadOnlyView (DatumToValue host true inTypeID inDatum) = false
    ∧ ∀ inMemoryIsWritable : Bool,
        (returnsWritableView (DatumToValue host inMemoryIsWritable inTypeID inDatum) = true
          ↔ inMemoryIsWritable = true) := by
  have h : ∀ w : Bool, DatumToValue host w inTypeID inDatum =
      if w then
        Except.ok (some (AbstractValue.ConcreteValue
          (Native.Array_double (MemHandle.PGArrayHandle pgArray) (ARR_DIMS pgArray 0))))
      else
        Except.ok (some (AbstractValue.ConcreteValue
          (Native.Array_const_double (MemHandle.PGArrayHandle pgArray)
            (ARR_DIMS pgArray 0)))) := by
    intro w
    rw [DatumToValue_array host w inTypeID inDatum pgArray hrow harr hdec]
    simp [hdim, hnull, helem]
  refine ⟨by rw [h true]; rfl, by rw [h true]; rfl, ?_⟩
  intro w
  rw [h w]
  cases w <;> simp [returnsWritableView]

/-- C7, evaluated: the `float8[3]` behind the datum `1` of the sample host gives
a writable view of extent `3`. -/
theorem DatumToValue_array_writable_witness :
    (sampleHost.type_is_rowtype 1022 = some false
      ∧ sampleHost.type_is_array 1022 = some true
      ∧ sampleHost.DatumGetArrayTypeP 1 = some sampleFloat8Array
      ∧ ARR_NDIM sampleFloat8Array = 1
      ∧ ARR_HASNULL sampleFloat8Array = false
      ∧ ARR_ELEMTYPE sampleFloat8Array = sampleHost.FLOAT8OID)
    ∧ DatumToValue sampleHost true 1022 1 =
        Except.ok (some (AbstractValue.ConcreteValue
          (Native.Array_double (MemHandle.PGArrayHandle sampleFloat8Array) 3))) :=
  ⟨⟨rfl, rfl, rfl, rfl, rfl, rfl⟩,
    (DatumToValue_array_writable sampleHost 1022 1 sampleFloat8Array
      rfl rfl rfl rfl rfl rfl).1⟩

/-- C8, evaluated on the code: the identifier `1007` (`int4[]`) of the sample
host is an array type and no row type, the datum `2` decodes to a
one-dimensional `int4` array without null bitmap, and `DatumToValue` does not
fail: the inner `switch` has no case for the element type, control reaches the
final `switch (inTypeID)`, and the empty pointer is returned. -/
theorem DatumToValue_int4_array_not_refused :
    sampleHost.type_is_rowtype 1007 = some false
    ∧ sampleHost.type_is_array 1007 = some true
    ∧ sampleHost.DatumGetArrayTypeP 2 = some sampleInt4Array
    ∧ ARR_NDIM sampleInt4Array = 1
    ∧ ARR_HASNULL sampleInt4Array = false
    ∧ ARR_ELEMTYPE sampleInt4Array ≠ sampleHost.FLOAT8OID
    ∧ DatumToValue sampleHost false 1007 2 = Except.ok none :=
  ⟨rfl, rfl, rfl, rfl, rfl, by decide, rfl⟩

/-- C9, evaluated on the code: `DatumToValue` returns the empty pointer for the
identifier `1007` of the sample host although that identifier is an array type
and the datum `2` decodes to an array. -/
theorem DatumToValue_empty_for_array_type :
    sampleHost.type_is_array 1007 = some true
    ∧ sampleHost.DatumGetArrayTypeP 2 = some sampleInt4Array
    ∧ DatumToValue sampleHost true 1007 2 = Except.ok none :=
  ⟨rfl, rfl, rfl⟩

/-! ## Errors raised by PostgreSQL during classification -/

/-- C10, evaluated on the code: on the sample host the identifier `1022`
(`float8[]`) is an array type and no row type, and decoding the datum `99` as an
array raises a PostgreSQL error.  The error is caught, and line 47 is the only
statement that looks at `errorOccurred`.  In the build with `NDEBUG` the
assertion is compiled out and, whatever the locals hold, the statements after it
run on them and decide the outcome: with `isTuple` and `isArray` reading as
false the empty pointer is returned, and with `isArray` reading as true and
`pgArray` reading as a one-dimensional `float8` array a `ConcreteValue` over
that array is returned.  In the build with active assertions the process is
aborted at line 47. -/
theorem DatumToValue_host_error_not_surfaced :
    (∀ (locals : TryLocals) (w : Bool),
      (sampleHostNDEBUG locals).type_is_rowtype 1022 = some false
      ∧ (sampleHostNDEBUG locals).type_is_array 1022 = some true
      ∧ (sampleHostNDEBUG locals).DatumGetArrayTypeP 99 = none
      ∧ DatumToValue (sampleHostNDEBUG locals) w 1022 99 =
          afterAssertion (sampleHostNDEBUG locals) w 1022 99 locals)
    ∧ DatumToValue (sampleHostNDEBUG TryLocals.neither) true 1022 99 = Except.ok none
    ∧ DatumToValue (sampleHostNDEBUG (TryLocals.array sampleFloat8Array)) true 1022 99 =
        Except.ok (some (AbstractValue.ConcreteValue
          (Native.Array_double (MemHandle.PGArrayHandle sampleFloat8Array) 3)))
    ∧ (sampleHost.DatumGetArrayTypeP 99 = none
      ∧ DatumToValue sampleHost true 1022 99 =
          Except.error (Failure.abort
            "An exception occurred while converting a PostgreSQL datum to DBAL object.")) :=
  ⟨fun _ _ => ⟨rfl, rfl, rfl, rfl⟩, rfl, rfl, rfl, rfl⟩

/-! ## Arrays of an unsupported element type -/

/-- C11: for an array type that is not a row type, when the decoded array is
one-dimensional, has no null bitmap and has an element type other than
`FLOAT8OID`, the result of `DatumToValue` is the result of the final
`switch (inTypeID)` on the outer type identifier and the raw datum: the empty
pointer when the identifier is none of the six case labels, and otherwise the
`ConcreteValue` of what that label's accessor reads from the datum.  Neither
the element type nor anything else of the array occurs in the result. -/
theorem DatumToValue_array_other_element (host : Host) (inMemoryIsWritable : Bool)
    (inTypeID : Oid) (inDatum : Datum) (pgArray : ArrayType)
    (hlabels : host.caseLabelsDistinct)
    (hrow : host.type_is_rowtype inTypeID = some false)
    (harr : host.type_is_array inTypeID = some true)
    (hdec : host.DatumGetArrayTypeP inDatum = some pgArray)
    (hdim : ARR_NDIM pgArray = 1)
    (hnull : ARR_HASNULL pgArray = false)
    (helem : ARR_ELEMTYPE pgArray ≠ host.FLOAT8OID) :
    DatumToValue host inMemoryIsWritable inTypeID inDatum =
        Except.ok (scalarSwitch host inTypeID inDatum)
    ∧ (inTypeID ≠ host.BOOLOID → inTypeID ≠ host.INT2OID → inTypeID ≠ host.INT4OID →
        inTypeID ≠ host.INT8OID → inTypeID ≠ host.FLOAT4OID → inTypeID ≠ host.FLOAT8OID →
        DatumToValue host inMemoryIsWritable inTypeID inDatum = Except.ok none)
    ∧ (inTypeID = host.BOOLOID →
      DatumToValue host inMemoryIsWritable inTypeID inDatum =
        Except.ok (some (AbstractValue.ConcreteValue (Native.bool (host.DatumGetBool inDatum)))))
    ∧ (inTypeID = host.INT2OID →
      DatumToValue host inMemoryIsWritable inTypeID inDatum =
        Except.ok (some (AbstractValue.ConcreteValue
          (Native.int16_t (host.DatumGetInt16 inDatum)))))
    ∧ (inTypeID = host.INT4OID →
      DatumToValue host inMemoryIsWritable inTypeID inDatum =
        Except.ok (some (AbstractValue.ConcreteValue
          (Native.int32_t (host.DatumGetInt32 inDatum)))))
    ∧ (inTypeID = host.INT8OID →
      DatumToValue host inMemoryIsWritable inTypeID inDatum =
        Except.ok (some (AbstractValue.ConcreteValue
          (Native.int64_t (host.DatumGetInt64 inDatum)))))
    ∧ (inTypeID = host.FLOAT4OID →
      DatumToValue host inMemoryIsWritable inTypeID inDatum =
        Except.ok (some (AbstractValue.ConcreteValue
          (Native.float (host.DatumGetFloat4 inDatum)))))
    ∧ (inTypeID = host.FLOAT8OID →
      DatumToValue host inMemoryIsWritable inTypeID inDatum =
        Except.ok (some (AbstractValue.ConcreteValue
          (Native.double (host.DatumGetFloat8 inDatum))))) := by
  have hfall := DatumToValue_array_fallthrough host inMemoryIsWritable inTypeID inDatum pgArray
    hrow harr hdec hdim hnull helem
  obtain ⟨l1, l2, l3, l4, l5, l6⟩ := scalarSwitch_of_label host inTypeID inDatum hlabels
  refine ⟨hfall, ?_, ?_, ?_, ?_, ?_, ?_, ?_⟩
  · intro h1 h2 h3 h4 h5 h6
    rw [hfall, scalarSwitch_of_no_label host inTypeID inDatum h1 h2 h3 h4 h5 h6]
  · intro h
    rw [hfall, l1 h]
  · intro h
    rw [hfall, l2 h]
  · intro h
    rw [hfall, l3 h]
  · intro h
    rw [hfall, l4 h]
  · intro h
    rw [hfall, l5 h]
  · intro h
    rw [hfall, l6 h]

/-- C11, evaluated: on the sample host the `int4[2]` behind the datum `2`,
converted under the array type `1007`, gives what the final switch gives for
`1007`, the empty pointer. -/
theorem DatumToValue_array_other_element_witness :
    (sampleHost.caseLabelsDistinct
      ∧ sampleHost.type_is_rowtype 1007 = some false
      ∧ sampleHost.type_is_array 1007 = some true
      ∧ sampleHost.DatumGetArrayTypeP 2 = some sampleInt4Array
      ∧ ARR_NDIM sampleInt4Array = 1
      ∧ ARR_HASNULL sampleInt4Array = false
      ∧ ARR_ELEMTYPE sampleInt4Array ≠ sampleHost.FLOAT8OID)
    ∧ DatumToValue sampleHost false 1007 2 = Except.ok (scalarSwitch sampleHost 1007 2)
    ∧ scalarSwitch sampleHost 1007 2 = none :=
  ⟨⟨sampleHost_caseLabelsDistinct, rfl, rfl, rfl, rfl, rfl, by decide⟩,
    (DatumToValue_array_other_element sampleHost false 1007 2 sampleInt4Array
      sampleHost_caseLabelsDistinct rfl rfl rfl rfl rfl (by decide)).1, rfl⟩

/-! ## The writable flag -/

/-- C12: whenever the outcome of `DatumToValue` under some writable flag is a
tuple `PGValue`, a scalar `ConcreteValue`, the empty pointer or a thrown
`std::invalid_argument`, the calls with the flag `true` and with the flag
`false` have the identical outcome. -/
theorem DatumToValue_flag_irrelevant (host : Host) (inMemoryIsWritable : Bool)
    (inTypeID : Oid) (inDatum : Datum)
    (hout : tupleScalarEmptyOrRefused
      (DatumToValue host inMemoryIsWritable inTypeID inDatum) = true) :
    DatumToValue host true inTypeID inDatum = DatumToValue host false inTypeID inDatum := by
  unfold DatumToValue at hout ⊢
  cases htry : tryBlock host inTypeID inDatum with
  | some locals =>
    rw [htry] at hout
    exact afterAssertion_flag host inMemoryIsWritable inTypeID inDatum locals hout
  | none =>
    rw [htry] at hout
    cases hmode : host.BOOST_ASSERT_MSG with
    | aborts => rfl
    | ignored =>
      rw [hmode] at hout
      exact afterAssertion_flag host inMemoryIsWritable inTypeID inDatum host.indeterminate hout

/-- C12, evaluated: on the sample host the two-dimensional array behind the
datum `3` is refused under either flag. -/
theorem DatumToValue_flag_irrelevant_witness :
    tupleScalarEmptyOrRefused (DatumToValue sampleHost true 1022 3) = true
    ∧ DatumToValue sampleHost true 1022 3 = DatumToValue sampleHost false 1022 3 :=
  ⟨rfl, DatumToValue_flag_irrelevant sampleHost true 1022 3 rfl⟩

/-! ## Order of the two array checks -/

/-- C13: for an array type that is not a row type, a decoded array with a
dimension count other than `1` and a null bitmap makes `DatumToValue` throw
with the message "Multidimensional arrays not yet supported"; and
`DatumToValue` throws with the message "Arrays with NULLs not yet supported"
exactly when the array is one-dimensional and has a null bitmap. -/
theorem DatumToValue_array_check_order (host : Host) (inMemoryIsWritable : Bool)
    (inTypeID : Oid) (inDatum : Datum) (pgArray : ArrayType)
    (hrow : host.type_is_rowtype inTypeID = some false)
    (harr : host.type_is_array inTypeID = some true)
    (hdec : host.DatumGetArrayTypeP inDatum = some pgArray) :
    (ARR_NDIM pgArray ≠ 1 → ARR_HASNULL pgArray = true →
      DatumToValue host inMemoryIsWritable inTypeID inDatum =
        Except.error (Failure.invalid_argument "Multidimensional arrays not yet supported"))
    ∧ (DatumToValue host inMemoryIsWritable inTypeID inDatum =
        Except.error (Failure.invalid_argument "Arrays with NULLs not yet supported")
      ↔ (ARR_NDIM pgArray = 1 ∧ ARR_HASNULL pgArray = true)) := by
  rw [DatumToValue_array host inMemoryIsWritable inTypeID inDatum pgArray hrow harr hdec]
  have hmsg : "Multidimensional arrays not yet supported" ≠
      "Arrays with NULLs not yet supported" := by decide
  refine ⟨fun hdim _ => if_pos hdim, ?_⟩
  by_cases hdim : ARR_NDIM pgArray ≠ 1
  · rw [if_pos hdim]
    constructor
    · intro h
      injection h with h
      injection h with h
      exact absurd h hmsg
    · intro h
      exact absurd h.1 hdim
  · have hone : ARR_NDIM pgArray = 1 := not_not.mp hdim
    rw [if_neg hdim]
    by_cases hnull : ARR_HASNULL pgArray = true
    · rw [if_pos hnull]
      exact ⟨fun _ => ⟨hone, hnull⟩, fun _ => rfl⟩
    · rw [if_neg hnull]
      constructor
      · intro h
        exfalso
        by_cases helem : ARR_ELEMTYPE pgArray = host.FLOAT8OID
        · cases inMemoryIsWritable <;> simp [helem] at h
        · simp [helem] at h
      · intro h
        exact absurd h.2 hnull

/-- C13, evaluated: on the sample host the two-dimensional array with a null
bitmap behind the datum `6` is refused as multidimensional, not for its nulls. -/
theorem DatumToValue_array_check_order_witness :
    (sampleHost.type_is_rowtype 1022 = some false
      ∧ sampleHost.type_is_array 1022 = some true
      ∧ sampleHost.DatumGetArrayTypeP 6 = some sampleNullMatrix
      ∧ ARR_NDIM sampleNullMatrix ≠ 1
      ∧ ARR_HASNULL sampleNullMatrix = true)
    ∧ DatumToValue sampleHost true 1022 6 =
        Except.error (Failure.invalid_argument "Multidimensional arrays not yet supported")
    ∧ DatumToValue sampleHost true 1022 6 ≠
        Except.error (Failure.invalid_argument "Arrays with NULLs not yet supported") :=
  ⟨⟨rfl, rfl, rfl, by decide, rfl⟩,
    (DatumToValue_array_check_order sampleHost true 1022 6 sampleNullMatrix rfl rfl rfl).1
      (by decide) rfl,
    fun h => absurd
      ((DatumToValue_array_check_order sampleHost true 1022 6 sampleNullMatrix
        rfl rfl rfl).2.mp h).1 (by decide)⟩

end madlib.dbconnector
